import Mathlib

/-!
Shallow embedding of the core aggregation logic of the delaynomics dashboard
(`src/dashboard_app_enhanced.py`): route-string parsing, two-tier airport
coordinate resolution, mixed-strategy route sampling, per-airport aggregation,
and calendar-grid binning, together with theorems settling the specification
claims about them.

Modelling conventions:
* Python `str` is Lean `String`; `str.split('-')` is modelled by a character
  level split (`splitOnChar`), `str.strip()` by `String.trim`, `str.upper()`
  by `String.toUpper`.
* CSV floats are modelled as exact rationals `ℚ` (no NaN values; the source's
  defensive `pd.isna` branches are unreachable in this model and noted where
  they occur).
* A possibly-missing value (Python `None` / a missing file) is `Option`.
* `pandas.DataFrame.sample(n, random_state=42)` draws from a generator built
  from the given seed, independent of any ambient random state; it is modelled
  by a deterministic seeded selection-without-replacement (`dfSample`) that
  falls back to an ambient seed only when no `random_state` is passed.
-/

/-- Character-level model of Python `str.split(sep)` for a one-character
separator: `splitOnChar c l` cuts `l` at every occurrence of `c`.
`splitOnChar c [] = [[]]`, matching Python's `"".split('-') == ['']`. -/
def splitOnChar (c : Char) : List Char → List (List Char)
  | [] => [[]]
  | x :: xs =>
    if x = c then
      [] :: splitOnChar c xs
    else
      match splitOnChar c xs with
      | [] => [[x]]
      | p :: ps => (x :: p) :: ps

/-- Character-level model of Python `str.strip()`: drop whitespace from both
ends. -/
def pyStrip (s : String) : String :=
  String.mk (((s.data.dropWhile Char.isWhitespace).reverse.dropWhile
    Char.isWhitespace).reverse)

/-- Character-level model of Python `str.upper()` (ASCII airport codes). -/
def pyUpper (s : String) : String :=
  String.mk (s.data.map Char.toUpper)

/-- `parse_route_codes` from `update_network_performance`: `None` (pandas NA)
maps to `(None, None)`; otherwise split the string on `'-'` and, when at least
two segments result, return the first two segments stripped and uppercased,
else `(None, None)`. -/
def parseRouteCodes (route_str : Option String) : Option String × Option String :=
  match route_str with
  | none => (none, none)
  | some s =>
    let parts := (splitOnChar '-' s.data).map String.mk
    match parts with
    | p0 :: p1 :: _ => (some (pyUpper (pyStrip p0)), some (pyUpper (pyStrip p1)))
    | _ => (none, none)

/-- One row of the optional external airport-coordinates CSV
(`data/airport_coords.csv`, columns `iata, lat, lon`). -/
structure CoordRow where
  iata : String
  lat : ℚ
  lon : ℚ
deriving DecidableEq
set_option maxHeartbeats 2000000 in
/-- The hardcoded IATA -> (lat, lon) fallback mapping `FALLBACK_AIRPORT_COORDS`,
transcribed entry-for-entry from the source constant (floats as exact rationals). -/
def FALLBACK_AIRPORT_COORDS : List (String × ℚ × ℚ) := [
  ("ABE", 40.6521, -75.4408),
  ("ABI", 32.4113, -99.6819),
  ("ABQ", 35.0402, -106.6091),
  ("ABR", 45.4491, -98.4218),
  ("ABY", 31.5355, -84.1947),
  ("ACK", 41.2530, -70.0602),
  ("ACT", 31.6113, -97.2305),
  ("ACV", 40.9781, -124.1086),
  ("ACY", 39.4576, -74.5772),
  ("AEX", 31.3274, -92.5486),
  ("AGS", 33.3699, -81.9645),
  ("ALB", 42.7483, -73.8017),
  ("ALO", 42.5571, -92.4003),
  ("ALW", 46.1768, -118.2887),
  ("AMA", 35.2194, -101.7059),
  ("ANC", 61.1743, -149.9962),
  ("APN", 45.0781, -83.5603),
  ("ASE", 39.2232, -106.8687),
  ("ATL", 33.6407, -84.4277),
  ("ATW", 44.2581, -88.5191),
  ("AUS", 30.1945, -97.6699),
  ("AVL", 35.4362, -82.5418),
  ("AVP", 41.3375, -75.7242),
  ("AZA", 33.3078, -111.6553),
  ("AZO", 42.2349, -85.5521),
  ("BDL", 41.9389, -72.6832),
  ("BFF", 41.8740, -103.5966),
  ("BFL", 35.4336, -119.0568),
  ("BGM", 42.2084, -75.9798),
  ("BGR", 44.8074, -68.8281),
  ("BHM", 33.5629, -86.7535),
  ("BIH", 37.9308, -91.7656),
  ("BIL", 45.8077, -108.5430),
  ("BIS", 46.7727, -100.7462),
  ("BJI", 64.8436, -147.6136),
  ("BLI", 48.7947, -122.5375),
  ("BLV", 38.5452, -89.8352),
  ("BMI", 40.4771, -88.9159),
  ("BNA", 36.1245, -86.6782),
  ("BOI", 43.5644, -116.2228),
  ("BOS", 42.3656, -71.0096),
  ("BPT", 29.9508, -94.0205),
  ("BQK", 25.2528, -80.1067),
  ("BQN", 18.4948, -67.1294),
  ("BRD", 45.2078, -69.7842),
  ("BRO", 25.9068, -97.4259),
  ("BTM", 45.9548, -112.4970),
  ("BTR", 30.5332, -91.1496),
  ("BTV", 44.4719, -73.1533),
  ("BUF", 42.9405, -78.7322),
  ("BUR", 34.2007, -118.3585),
  ("BWI", 39.1754, -76.6684),
  ("BZN", 45.7769, -111.1530),
  ("CAE", 33.9388, -81.1195),
  ("CAK", 40.9161, -81.4422),
  ("CDC", 37.7005, -113.0984),
  ("CHA", 35.0353, -85.2034),
  ("CHO", 38.1386, -78.4529),
  ("CHS", 32.8986, -80.0405),
  ("CID", 41.8847, -91.7108),
  ("CIU", 46.9108, -68.0178),
  ("CLD", 32.9005, -117.2800),
  ("CLE", 41.4117, -81.8498),
  ("CLL", 30.5886, -96.3631),
  ("CLT", 35.2144, -80.9473),
  ("CMH", 39.9980, -82.8919),
  ("CMI", 40.0392, -88.2781),
  ("CMX", 47.1684, -88.4891),
  ("COD", 44.5202, -109.0238),
  ("COS", 38.8058, -104.7006),
  ("COU", 38.8181, -92.2196),
  ("CPR", 42.9080, -106.4644),
  ("CRP", 27.7704, -97.5012),
  ("CRW", 38.3731, -81.5932),
  ("CSG", 32.5163, -84.9389),
  ("CVG", 39.0488, -84.6678),
  ("CWA", 44.7776, -89.6674),
  ("CYS", 41.1557, -104.8119),
  ("DAB", 29.1799, -81.0581),
  ("DAL", 32.8471, -96.8518),
  ("DAY", 39.9024, -84.2194),
  ("DCA", 38.8512, -77.0402),
  ("DDC", 37.7634, -99.9656),
  ("DEC", 39.8346, -88.8657),
  ("DEN", 39.8561, -104.6737),
  ("DFW", 32.8998, -97.0403),
  ("DHN", 31.3213, -85.4496),
  ("DIK", 46.7979, -102.8019),
  ("DLH", 46.8421, -92.1936),
  ("DRO", 37.1515, -107.7538),
  ("DSM", 41.5340, -93.6631),
  ("DTW", 42.2162, -83.3554),
  ("DVL", 46.8427, -96.8156),
  ("EAR", 40.7273, -99.0068),
  ("EAU", 44.8658, -91.4843),
  ("ECP", 30.3581, -85.7948),
  ("EGE", 39.6426, -106.9177),
  ("EKO", 38.8042, -79.8573),
  ("ELM", 42.1599, -76.8916),
  ("ELP", 31.8072, -106.3781),
  ("ESC", 45.7227, -87.0937),
  ("EUG", 44.1246, -123.2114),
  ("EVV", 38.0370, -87.5324),
  ("EWN", 35.0730, -77.0429),
  ("EWR", 40.6895, -74.1745),
  ("EYW", 24.5561, -81.7596),
  ("FAI", 64.8151, -147.8560),
  ("FAR", 46.9207, -96.8158),
  ("FAT", 36.7762, -119.7181),
  ("FAY", 34.9912, -78.8803),
  ("FCA", 48.3105, -114.2551),
  ("FLG", 35.1345, -111.6703),
  ("FLL", 26.0742, -80.1506),
  ("FMN", 36.7412, -108.2298),
  ("FNT", 42.9655, -83.7436),
  ("FOD", 42.5511, -94.1925),
  ("FSD", 43.5820, -96.7419),
  ("FSM", 35.3362, -94.3675),
  ("FWA", 40.9785, -85.1951),
  ("GCC", 43.8742, -103.0574),
  ("GCK", 37.9276, -100.7244),
  ("GEG", 47.6198, -117.5336),
  ("GFK", 47.9493, -97.1761),
  ("GGG", 32.3840, -94.7116),
  ("GJT", 39.1224, -108.5267),
  ("GNV", 29.6900, -82.2718),
  ("GPT", 30.4073, -89.0701),
  ("GRB", 44.4851, -88.1296),
  ("GRI", 40.9675, -98.3096),
  ("GRK", 31.0672, -97.8289),
  ("GRR", 42.8808, -85.5228),
  ("GSO", 36.0978, -79.9373),
  ("GSP", 34.8957, -82.2189),
  ("GTF", 47.4820, -111.3705),
  ("GTR", 33.4503, -88.5914),
  ("GUC", 38.5339, -106.9331),
  ("GUF", 39.3704, -81.4395),
  ("GUM", 13.4834, 144.7960),
  ("HDN", 40.4811, -107.2176),
  ("HHH", 35.2584, -80.9536),
  ("HIB", 47.3866, -92.8389),
  ("HLN", 46.6068, -111.9825),
  ("HNL", 21.3099, -157.8581),
  ("HOB", 32.6875, -103.2173),
  ("HOU", 29.6454, -95.2789),
  ("HPN", 41.0670, -73.7076),
  ("HRL", 26.2285, -97.6544),
  ("HSV", 34.6371, -86.7750),
  ("HTS", 38.3667, -82.5581),
  ("HYA", 41.6693, -70.2803),
  ("HYS", 38.8422, -99.2732),
  ("IAD", 38.9531, -77.4565),
  ("IAH", 29.9902, -95.3368),
  ("ICT", 37.6499, -97.4331),
  ("IDA", 43.5146, -112.0707),
  ("ILM", 34.2706, -77.9026),
  ("IMT", 45.8181, -88.1145),
  ("IND", 39.7173, -86.2944),
  ("INL", 48.5664, -93.4031),
  ("ISP", 40.7952, -73.1002),
  ("ITH", 42.4831, -76.4584),
  ("ITO", 19.7188, -155.0478),
  ("JAC", 43.6073, -110.7377),
  ("JAN", 32.3112, -90.0759),
  ("JAX", 30.4941, -81.6878),
  ("JFK", 40.6413, -73.7781),
  ("JLN", 38.7424, -94.8907),
  ("JMS", 46.9297, -98.6782),
  ("JNU", 58.3548, -134.5763),
  ("JST", 40.3161, -78.8339),
  ("KOA", 19.7388, -156.0456),
  ("KTN", 55.3556, -131.7136),
  ("LAN", 42.7787, -84.5874),
  ("LAR", 41.3121, -105.6750),
  ("LAS", 36.0840, -115.1537),
  ("LAW", 34.5677, -98.4166),
  ("LAX", 33.9416, -118.4085),
  ("LBB", 33.6636, -101.8228),
  ("LBE", 40.2759, -79.4048),
  ("LBF", 41.1313, -100.6846),
  ("LBL", 37.0441, -89.8786),
  ("LCH", 30.1261, -93.2234),
  ("LCK", 39.8138, -82.9278),
  ("LEX", 38.0365, -84.6059),
  ("LFT", 30.2053, -91.9876),
  ("LGA", 40.7769, -73.8740),
  ("LGB", 33.8177, -118.1516),
  ("LIH", 21.9760, -159.3390),
  ("LIT", 34.7294, -92.2243),
  ("LNK", 40.8510, -96.7581),
  ("LRD", 27.5438, -99.4616),
  ("LSE", 43.8759, -91.2563),
  ("LWS", 46.3745, -117.0154),
  ("MAF", 31.9425, -102.2019),
  ("MBS", 43.5329, -84.0796),
  ("MCI", 39.2976, -94.7139),
  ("MCO", 28.4312, -81.3081),
  ("MCW", 41.4307, -100.5917),
  ("MDT", 40.1935, -76.7634),
  ("MDW", 41.7868, -87.7522),
  ("MEI", 32.3326, -88.7519),
  ("MEM", 35.0424, -89.9767),
  ("MFE", 26.1758, -98.2386),
  ("MFR", 42.3742, -122.8738),
  ("MGM", 32.3006, -86.3940),
  ("MGW", 39.6429, -79.9163),
  ("MHK", 39.1409, -96.6708),
  ("MHT", 42.9326, -71.4357),
  ("MIA", 25.7959, -80.2870),
  ("MKE", 42.9472, -87.8966),
  ("MLB", 28.1028, -80.6453),
  ("MLI", 41.4486, -90.5075),
  ("MLU", 32.5109, -92.0377),
  ("MOB", 30.6912, -88.2431),
  ("MOT", 48.2593, -101.2803),
  ("MQT", 46.3536, -87.3951),
  ("MRY", 36.5870, -121.8429),
  ("MSN", 43.1399, -89.3375),
  ("MSO", 46.9163, -114.0909),
  ("MSP", 44.8848, -93.2223),
  ("MSY", 29.9934, -90.2581),
  ("MTJ", 37.2276, -108.5259),
  ("MVY", 41.3931, -70.6143),
  ("MYR", 33.6797, -78.9283),
  ("OAJ", 36.9681, -76.2012),
  ("OAK", 37.7214, -122.2208),
  ("OGG", 20.8986, -156.4307),
  ("OKC", 35.3931, -97.6007),
  ("OMA", 41.3032, -95.8941),
  ("ONT", 34.0560, -117.6012),
  ("ORD", 41.9742, -87.9073),
  ("ORF", 36.8946, -76.2012),
  ("ORH", 42.2673, -71.8757),
  ("OTH", 43.4172, -124.2461),
  ("PAE", 47.9063, -122.2815),
  ("PBG", 44.6510, -73.4681),
  ("PBI", 26.6832, -80.0956),
  ("PDX", 45.5898, -122.5951),
  ("PGD", 26.9202, -81.9905),
  ("PHL", 39.8744, -75.2424),
  ("PHX", 33.4342, -112.0116),
  ("PIA", 40.6642, -89.6933),
  ("PIB", 39.2681, -79.9331),
  ("PIE", 27.9103, -82.6874),
  ("PIH", 42.9098, -112.5958),
  ("PIT", 40.4915, -80.2329),
  ("PLN", 44.6850, -85.5783),
  ("PNS", 30.4734, -87.1866),
  ("PPG", -14.3310, -170.7105),
  ("PQI", 46.6890, -68.0448),
  ("PRC", 34.6544, -112.4196),
  ("PSC", 46.2647, -119.1191),
  ("PSE", 18.0083, -66.5635),
  ("PSP", 33.8297, -116.5066),
  ("PVD", 41.7240, -71.4281),
  ("PVU", 40.2192, -111.7235),
  ("PWM", 43.6462, -70.3093),
  ("RAP", 44.0453, -103.0574),
  ("RDD", 40.5089, -122.2934),
  ("RDM", 44.2541, -121.1500),
  ("RDU", 35.8776, -78.7875),
  ("RFD", 42.1954, -89.0972),
  ("RHI", 45.6312, -89.4675),
  ("RIC", 37.5052, -77.3197),
  ("RIW", 43.0642, -108.4597),
  ("RKS", 41.5942, -109.0651),
  ("RNO", 39.4991, -119.7681),
  ("ROA", 37.3255, -79.9754),
  ("ROC", 43.1189, -77.6724),
  ("ROW", 33.3017, -104.5307),
  ("RST", 43.9083, -92.4902),
  ("RSW", 26.5362, -81.7552),
  ("SAF", 35.6178, -106.0887),
  ("SAN", 32.7338, -117.1933),
  ("SAT", 29.5337, -98.4698),
  ("SAV", 32.1276, -81.2021),
  ("SBA", 34.4259, -119.8403),
  ("SBN", 41.7093, -86.3186),
  ("SBP", 35.2368, -120.6424),
  ("SCE", 40.8496, -78.2897),
  ("SCK", 37.8942, -121.2381),
  ("SDF", 38.1740, -85.7364),
  ("SEA", 47.4502, -122.3088),
  ("SFB", 28.7776, -81.2375),
  ("SFO", 37.6213, -122.3790),
  ("SGF", 37.2457, -93.3886),
  ("SGU", 37.0361, -113.5103),
  ("SHR", 44.7692, -106.9803),
  ("SHV", 32.4466, -93.8256),
  ("SIT", 57.0471, -135.3616),
  ("SJC", 37.3639, -121.9289),
  ("SJT", 31.3577, -100.4963),
  ("SJU", 18.4394, -66.0018),
  ("SLC", 40.7884, -111.9778),
  ("SLN", 38.8403, -97.6519),
  ("SMF", 38.6954, -121.5908),
  ("SMX", 34.8989, -120.4576),
  ("SNA", 33.6757, -117.8681),
  ("SPI", 39.8441, -89.6779),
  ("SPS", 33.9888, -98.4919),
  ("SRQ", 27.3954, -82.5544),
  ("STL", 38.7487, -90.3700),
  ("STS", 38.5089, -122.8131),
  ("STT", 18.3373, -64.9733),
  ("STX", 17.7019, -64.7986),
  ("SUN", 43.5041, -114.2958),
  ("SUX", 42.4026, -96.3844),
  ("SWF", 41.5041, -74.1048),
  ("SWO", 37.3684, -92.2226),
  ("SYR", 43.1112, -76.1063),
  ("TLH", 30.3965, -84.3503),
  ("TPA", 27.9755, -82.5332),
  ("TRI", 36.4752, -82.4074),
  ("TTN", 40.2766, -74.8148),
  ("TUL", 36.1984, -95.8881),
  ("TUS", 32.1161, -110.9410),
  ("TVC", 44.7414, -85.5822),
  ("TWF", 42.4818, -114.4877),
  ("TXK", 33.4537, -93.9910),
  ("TYR", 32.3540, -95.4024),
  ("TYS", 35.8111, -83.9937),
  ("USA", 31.1447, -87.4214),
  ("VCT", 28.8526, -96.9185),
  ("VLD", 30.7825, -83.2767),
  ("VPS", 30.4832, -86.5254),
  ("WYS", 37.2018, -109.7549),
  ("XNA", 36.2819, -94.3069),
  ("XWA", 47.2304, -120.2067),
  ("YUM", 32.6566, -114.6060)
]

/-- Lookup in the fallback mapping (`airport_code in FALLBACK_AIRPORT_COORDS`
followed by `FALLBACK_AIRPORT_COORDS[airport_code]`; the keys are pairwise
distinct in the source, so first-match lookup coincides with dict lookup). -/
def fallbackLookup (code : String) : Option (ℚ × ℚ) :=
  (FALLBACK_AIRPORT_COORDS.find? (fun p => p.1 == code)).map (·.2)

/-- The pair returned from the fallback branch of `get_coordinates`. -/
def fallbackPair (code : String) : Option ℚ × Option ℚ :=
  match fallbackLookup code with
  | some (la, lo) => (some la, some lo)
  | none => (none, none)

/-- `get_coordinates` from `update_network_performance`: a falsy code
(`None` or the empty string) yields `(None, None)`; otherwise the external
table (when loaded) is queried first by exact `iata` match, then the
hardcoded fallback mapping, and `(None, None)` when neither has the code. -/
def getCoordinates (coords_df : Option (List CoordRow)) (airport_code : Option String) :
    Option ℚ × Option ℚ :=
  match airport_code with
  | none => (none, none)
  | some code =>
    if code = "" then (none, none)
    else
      match coords_df with
      | some tbl =>
        match tbl.find? (fun r => r.iata == code) with
        | some r => (some r.lat, some r.lon)
        | none => fallbackPair code
      | none => fallbackPair code

/-- One row of the route summary table `outputs/route_summary.csv`, with the
columns the network-map callback reads (floats as exact rationals). -/
structure RouteRow where
  route : String
  primary_carrier : String
  num_flights : Int
  total_delay_cost : ℚ
  avg_delay_cost : ℚ
  avg_delay_min : ℚ
  delay_rate : ℚ
deriving DecidableEq

/-- Model of `DataFrame.nlargest(n, col)` with the default `keep='first'`:
stable sort by the key, larger keys first (ties keep earlier rows), then the
first `n` rows (realised as a stable insertion sort). -/
def nlargest (n : Nat) (key : RouteRow → ℚ) (rows : List RouteRow) : List RouteRow :=
  (rows.insertionSort (fun a b => key b ≤ key a)).take n

/-- A deterministic per-row shuffle key derived from the generator seed,
modelling the pseudo-random draw of `DataFrame.sample`. -/
def rowKey (seed : Nat) (r : RouteRow) : Nat :=
  r.route.data.foldl (fun a c => (a * 1103515245 + c.toNat + 12345) % 2147483648)
    ((seed * 1103515245 + 12345) % 2147483648)

/-- Model of `DataFrame.sample(n, random_state)`: shuffle the rows by a
deterministic generator built from the seed, then take the first `n`, i.e. a
seeded selection of `min n (length rows)` distinct rows without replacement.
When `random_state` is `none`, pandas draws from the ambient global generator
state instead, modelled by the `ambient` parameter; the source always passes
`random_state=42`. -/
def dfSample (n : Nat) (random_state : Option Nat) (ambient : Nat)
    (rows : List RouteRow) : List RouteRow :=
  (rows.insertionSort (fun a b =>
    rowKey (random_state.getD ambient) a ≤ rowKey (random_state.getD ambient) b)).take n

/-- The eligibility stage of `update_network_performance`: drop routes with
fewer than 25 flights (`route_df[route_df['num_flights'] >= 25]`), then apply
the carrier filter when it is truthy (`if carriers_to_filter and
'primary_carrier' in route_df.columns`); `None` and the empty list are falsy.
The `primary_carrier` column is taken as present, per the documented schema. -/
def eligibleRoutes (carriers_to_filter : Option (List String)) (rows : List RouteRow) :
    List RouteRow :=
  let filtered := rows.filter (fun r => 25 ≤ r.num_flights)
  match carriers_to_filter with
  | some (c :: cs) => filtered.filter (fun r => (c :: cs).contains r.primary_carrier)
  | _ => filtered

/-- `cost_routes = route_df.nlargest(int(top_n * 0.4), value_col)`, where
`value_col` is `'total_delay_cost'` when that column exists and
`'avg_delay_cost'` otherwise; `int(n * 0.4) = 2 * n / 5` exactly for every
slider value `n`. -/
def costRoutes (value_key : RouteRow → ℚ) (n : Nat) (route_df : List RouteRow) :
    List RouteRow :=
  nlargest (2 * n / 5) value_key route_df

/-- `volume_routes = route_df.nlargest(int(top_n * 0.4), 'num_flights')`. -/
def volumeRoutes (n : Nat) (route_df : List RouteRow) : List RouteRow :=
  nlargest (2 * n / 5) (fun r => (r.num_flights : ℚ)) route_df

/-- `used_routes = pd.concat([cost_routes, volume_routes])['route'].unique()`
(only its membership is ever used). -/
def usedRouteIds (value_key : RouteRow → ℚ) (n : Nat) (route_df : List RouteRow) :
    List String :=
  ((costRoutes value_key n route_df ++ volumeRoutes n route_df).map (·.route)).dedup

/-- `remaining_routes = route_df[~route_df['route'].isin(used_routes)]`. -/
def remainingRoutes (value_key : RouteRow → ℚ) (n : Nat) (route_df : List RouteRow) :
    List RouteRow :=
  route_df.filter (fun r => !((usedRouteIds value_key n route_df).contains r.route))

/-- `diversity_routes = remaining_routes.sample(min(int(top_n * 0.2),
len(remaining_routes)), random_state=42) if len(remaining_routes) > 0 else
pd.DataFrame()`; `int(n * 0.2) = n / 5` exactly for every slider value `n`. -/
def diversityRoutes (value_key : RouteRow → ℚ) (ambient : Nat) (n : Nat)
    (route_df : List RouteRow) : List RouteRow :=
  if 0 < (remainingRoutes value_key n route_df).length then
    dfSample (min (n / 5) (remainingRoutes value_key n route_df).length) (some 42) ambient
      (remainingRoutes value_key n route_df)
  else []

/-- Fuel-driven worker for `dedupeByRoute` (the fuel, initially the list
length, only makes the recursion structural and never runs out). -/
def dedupeByRouteGo : Nat → List RouteRow → List RouteRow
  | _, [] => []
  | 0, _ :: _ => []
  | n + 1, r :: rs => r :: dedupeByRouteGo n (rs.filter (fun x => x.route != r.route))

/-- `combined_routes.drop_duplicates(subset=['route'])`: keep the first row
bearing each route identifier. -/
def dedupeByRoute (l : List RouteRow) : List RouteRow :=
  dedupeByRouteGo l.length l

/-- The whole route-selection stage of `update_network_performance`: carrier
and minimum-flight filtering, the three subsets, concatenation in source order
(`[cost_routes, volume_routes]` plus `diversity_routes` when non-empty, which
coincides with always appending it), de-duplication by route identifier, and
`head(top_n)`. `top_n` defaults to 200 when the slider reports `None`;
`ambient` is the ambient global random-generator state, unused because the
source fixes `random_state=42`. -/
def sampleRoutes (value_key : RouteRow → ℚ) (ambient : Nat)
    (carriers_to_filter : Option (List String)) (top_n : Option Nat)
    (rows : List RouteRow) : List RouteRow :=
  let route_df := eligibleRoutes carriers_to_filter rows
  let n := top_n.getD 200
  (dedupeByRoute (costRoutes value_key n route_df ++ volumeRoutes n route_df ++
    diversityRoutes value_key ambient n route_df)).take n

/-- Gregorian leap year, as implemented by the pandas calendar. -/
def isLeapYear (y : Nat) : Bool :=
  (y % 4 == 0 && y % 100 != 0) || y % 400 == 0

/-- Number of days of a month (`first + pd.offsets.MonthEnd(0)`). -/
def daysInMonth (y m : Nat) : Nat :=
  if m = 2 then (if isLeapYear y then 29 else 28)
  else if m = 4 ∨ m = 6 ∨ m = 9 ∨ m = 11 then 30
  else 31

/-- Days strictly before January 1st of year `y` in the proleptic Gregorian
calendar (day 1 being 0001-01-01). -/
def daysBeforeYear (y : Nat) : Nat :=
  (y - 1) * 365 + (y - 1) / 4 - (y - 1) / 100 + (y - 1) / 400

/-- Days of year `y` strictly before month `m`. -/
def daysBeforeMonth (y m : Nat) : Nat :=
  ((List.range (m - 1)).map (fun k => daysInMonth y (k + 1))).sum

/-- `pd.Timestamp(year, month, 1).weekday()`: weekday of the first of the
month, Monday = 0 .. Sunday = 6 (0001-01-01 is a Monday). -/
def firstWeekday (y m : Nat) : Nat :=
  (daysBeforeYear y + daysBeforeMonth y m) % 7

/-- One row of the `daily` frame of `update_route_analysis`: a calendar date
and the summed `delay_cost` of all flights on that date. -/
structure DayRec where
  year : Nat
  month : Nat
  day : Nat
  delay_cost : ℚ
deriving DecidableEq

/-- The first-match day lookup of `month_matrix`:
`val = df_month.loc[df_month['date'] == d, 'delay_cost']` followed by
`float(val.values[0]) if not val.empty else 0.0`. -/
def dayCost (df_month : List DayRec) (y m d : Nat) : ℚ :=
  ((df_month.find? (fun r => r.year == y && r.month == m && r.day == d)).map
    (·.delay_cost)).getD 0

/-- Fuel-driven worker for `chunkWeeks` (the fuel, initially the list length,
only makes the recursion structural and never runs out). -/
def chunkWeeksGo : Nat → List (Option ℚ) → List (List (Option ℚ))
  | _, [] => []
  | 0, _ :: _ => []
  | n + 1, c :: cs =>
    ((c :: cs).take 7 ++ List.replicate (7 - ((c :: cs).take 7).length) none) ::
      chunkWeeksGo n ((c :: cs).drop 7)

/-- The week-accumulation loop of `month_matrix`: cut the cell list into rows
of seven, padding the final partial row with `None` cells. -/
def chunkWeeks (cells : List (Option ℚ)) : List (List (Option ℚ)) :=
  chunkWeeksGo cells.length cells

/-- `month_matrix(df_month)` from `update_route_analysis`: read month and year
from the first record (the source indexes `iloc[0]` and only calls this on a
non-empty frame; on an empty input this model reads month and year 0), prepend
`None` padding cells for the weekdays before the 1st, lay out one cell per day
of the month — the recorded cost when the date has a record, `0.0` otherwise —
and pad the final partial week with `None`. -/
def month_matrix (df_month : List DayRec) : List (List (Option ℚ)) :=
  let month := (df_month.head?.map (·.month)).getD 0
  let year := (df_month.head?.map (·.year)).getD 0
  let cells := List.replicate (firstWeekday year month) (none : Option ℚ) ++
    (List.range (daysInMonth year month)).map
      (fun i => some (dayCost df_month year month (i + 1)))
  chunkWeeks cells

/-- The per-month dispatch of `update_route_analysis`:
`mdf = year_df[year_df['date'].dt.month == m]` and
`mat = month_matrix(mdf) if not mdf.empty else [[0]*7]`. -/
def monthGrid (year_df : List DayRec) (m : Nat) : List (List (Option ℚ)) :=
  let mdf := year_df.filter (fun r => r.month == m)
  if mdf.isEmpty then [List.replicate 7 (some 0)] else month_matrix mdf

/-- One record of `coords_data` in `update_network_performance`: a sampled
route with both endpoints resolved, ready for geographic plotting. The
endpoint and coordinate fields hold exactly the values produced by
`parse_route_codes` and `get_coordinates` for the row. -/
structure MapRecord where
  route : String
  origin : Option String
  dest : Option String
  origin_lat : Option ℚ
  origin_lon : Option ℚ
  dest_lat : Option ℚ
  dest_lon : Option ℚ
  delay_cost : ℚ
  num_flights : Int
  avg_delay_min : ℚ
  delay_rate : ℚ
  carrier : String
deriving DecidableEq

/-- The `coords_data` construction loop of `update_network_performance`: for
each sampled row, parse the route string, resolve both endpoints, read the
row's delay cost from the value column (`row[value_col]`, i.e. `value_key`,
the same column the sampler ranked by), clamp a negative delay cost to 0 (the
`pd.isna` half of that check, like the `pd.notna` guards on `avg_delay_min`
and `delay_rate`, is the identity in the NaN-free model), clamp `num_flights`
below at 0, and append the record only when all four coordinates resolved
(`all(coord is not None ...)`). The source's local variables `origin_lat,
origin_lon, dest_lat, dest_lon` are inlined. -/
def buildCoordsData (value_key : RouteRow → ℚ) (coords_df : Option (List CoordRow))
    (top_routes : List RouteRow) : List MapRecord :=
  top_routes.foldr (fun row (acc : List MapRecord) =>
    if (getCoordinates coords_df (parseRouteCodes (some row.route)).1).1.isSome &&
       (getCoordinates coords_df (parseRouteCodes (some row.route)).1).2.isSome &&
       (getCoordinates coords_df (parseRouteCodes (some row.route)).2).1.isSome &&
       (getCoordinates coords_df (parseRouteCodes (some row.route)).2).2.isSome then
      { route := row.route,
        origin := (parseRouteCodes (some row.route)).1,
        dest := (parseRouteCodes (some row.route)).2,
        origin_lat := (getCoordinates coords_df (parseRouteCodes (some row.route)).1).1,
        origin_lon := (getCoordinates coords_df (parseRouteCodes (some row.route)).1).2,
        dest_lat := (getCoordinates coords_df (parseRouteCodes (some row.route)).2).1,
        dest_lon := (getCoordinates coords_df (parseRouteCodes (some row.route)).2).2,
        delay_cost := if value_key row < (0 : ℚ) then (0 : ℚ) else value_key row,
        num_flights := max 0 row.num_flights,
        avg_delay_min := row.avg_delay_min, delay_rate := row.delay_rate,
        carrier := row.primary_carrier } :: acc
    else acc) []

/-- Per-airport aggregate built by the airport-nodes loop of
`update_network_performance`. -/
structure AirportAgg where
  lat : Option ℚ
  lon : Option ℚ
  total_cost : ℚ
  total_flights : Int
  routes : Nat
deriving DecidableEq

/-- One endpoint step of the airport-nodes loop: create the aggregate with the
endpoint's coordinates if the key is new, then add the record's delay cost and
flight count and count one more route. -/
def bumpAirport (m : Option String → Option AirportAgg) (code : Option String)
    (la lo : Option ℚ) (cost : ℚ) (flights : Int) :
    Option String → Option AirportAgg :=
  let cur : AirportAgg := match m code with
    | none => { lat := la, lon := lo, total_cost := 0, total_flights := 0, routes := 0 }
    | some a => a
  fun k =>
    if k = code then
      some ⟨cur.lat, cur.lon, cur.total_cost + cost, cur.total_flights + flights, cur.routes + 1⟩
    else m k

/-- The airport-nodes loop of `update_network_performance`: fold over the map
records, crediting each record in full to both its origin and its destination
aggregate. The Python dict keyed by airport code is modelled as a function
from codes to optional aggregates. -/
def airportStep (m : Option String → Option AirportAgg) (rec : MapRecord) :
    Option String → Option AirportAgg :=
  bumpAirport
    (bumpAirport m rec.origin rec.origin_lat rec.origin_lon rec.delay_cost rec.num_flights)
    rec.dest rec.dest_lat rec.dest_lon rec.delay_cost rec.num_flights

def buildAirports (recs : List MapRecord) : Option String → Option AirportAgg :=
  recs.foldl airportStep (fun _ => none)

/-- The values a core callback can return: a rendered chart, or the
placeholder figure `_empty_figure(message)`. -/
inductive Fig where
  | emptyFigure (message : String)
  | networkMap (coords_data : List MapRecord)
  | calendarHeatmap (year : Nat) (months : List (List (List (Option ℚ))))
deriving DecidableEq

/-- The route summary CSV as read from disk: the column names present in the
file together with the row values (a row supplies a value for every modelled
column; reading a column absent from `columns` raises a `KeyError`). -/
structure RouteCsv where
  columns : List String
  rows : List RouteRow

/-- The body of `update_network_performance` inside its `try`, returning
`Except.error` where the Python code would raise: `route_df['num_flights']`
with no `num_flights` column, the `route` column reads, and
`nlargest(..., 'avg_delay_cost')` when neither value column exists.
`value_col = 'total_delay_cost' if present else 'avg_delay_cost'`. -/
def networkBody (csv : RouteCsv) (top_n : Option Nat)
    (carrier_filter : Option (List String)) (ambient : Nat)
    (coords_csv : Option (List CoordRow)) : Except String Fig :=
  if csv.rows.isEmpty then
    Except.ok (Fig.emptyFigure "Route summary CSV is empty")
  else if !(csv.columns.contains "num_flights") then
    Except.error "KeyError: num_flights"
  else if !(csv.columns.contains "route") then
    Except.error "KeyError: route"
  else if !(csv.columns.contains "total_delay_cost") &&
      !(csv.columns.contains "avg_delay_cost") then
    Except.error "KeyError: avg_delay_cost"
  else
    let value_key : RouteRow → ℚ :=
      if csv.columns.contains "total_delay_cost" then (·.total_delay_cost)
      else (·.avg_delay_cost)
    let top_routes := sampleRoutes value_key ambient carrier_filter top_n csv.rows
    let coords_data := buildCoordsData value_key coords_csv top_routes
    if coords_data.isEmpty then
      Except.ok (Fig.emptyFigure "No coordinate data available for routes")
    else
      Except.ok (Fig.networkMap coords_data)

/-- `update_network_performance`: a missing `outputs/route_summary.csv` is
reported as a placeholder figure before the `try`; any exception raised inside
the body is caught and rendered as
`_empty_figure(f"Error creating network map: ...")`. The carrier filter
parameter stands for `carriers_to_filter` (the UI filter or, failing that, the
globally selected carriers). -/
def update_network_performance (route_csv : Option RouteCsv) (top_n : Option Nat)
    (carrier_filter : Option (List String)) (ambient : Nat)
    (coords_csv : Option (List CoordRow)) : Fig :=
  match route_csv with
  | none => Fig.emptyFigure "Route summary CSV not found (outputs/route_summary.csv)"
  | some csv =>
    match networkBody csv top_n carrier_filter ambient coords_csv with
    | Except.ok fig => fig
    | Except.error e => Fig.emptyFigure ("Error creating network map: " ++ e)

/-- One row of `outputs/full_dataset_for_tableau.csv`, restricted to the
columns `update_route_analysis` reads. -/
structure FlightRec where
  year : Nat
  month : Nat
  day : Nat
  delay_cost : ℚ
  carrier : String
deriving DecidableEq

/-- The full per-flight CSV as read from disk (columns present, plus rows). -/
structure FlightCsv where
  columns : List String
  rows : List FlightRec

/-- A (year, month, day) triple that `pd.to_datetime` accepts. -/
def validDate (y m d : Nat) : Bool :=
  1 ≤ y && 1 ≤ m && m ≤ 12 && 1 ≤ d && d ≤ daysInMonth y m

/-- `daily = df.groupby('date', as_index=False)['delay_cost'].sum()`: one
record per distinct date, in ascending date order, holding the summed cost. -/
def dailyAgg (rows : List FlightRec) : List DayRec :=
  let keys := (rows.map (fun r => (r.year, r.month, r.day))).dedup
  let sorted := keys.insertionSort (fun a b =>
    a.1 < b.1 ∨ (a.1 = b.1 ∧ (a.2.1 < b.2.1 ∨ (a.2.1 = b.2.1 ∧ a.2.2 ≤ b.2.2))))
  sorted.map (fun k =>
    { year := k.1, month := k.2.1, day := k.2.2,
      delay_cost := ((rows.filter
        (fun r => r.year == k.1 && r.month == k.2.1 && r.day == k.2.2)).map
          (·.delay_cost)).sum })

/-- The body of `update_route_analysis` inside its `try`: empty-file check,
carrier filter (guarded by the presence of the `Carrier` column), date
assembly (`KeyError` when a date column is missing, a raise when a date is
invalid), daily aggregation, empty-result check, and the twelve month grids of
the most recent year. -/
def analysisBody (csv : FlightCsv) (carriers_to_filter : Option (List String)) :
    Except String Fig :=
  if csv.rows.isEmpty then
    Except.ok (Fig.emptyFigure "Full dataset CSV is empty")
  else
    let df : List FlightRec := match carriers_to_filter with
      | some (c :: cs) =>
        if csv.columns.contains "Carrier" then
          csv.rows.filter (fun r => (c :: cs).contains r.carrier)
        else csv.rows
      | _ => csv.rows
    if !(csv.columns.contains "Year") || !(csv.columns.contains "Month") ||
        !(csv.columns.contains "DayofMonth") then
      Except.error "KeyError: date columns"
    else if df.any (fun r => !validDate r.year r.month r.day) then
      Except.error "cannot assemble the datetimes"
    else if !(csv.columns.contains "delay_cost") then
      Except.error "KeyError: delay_cost"
    else
      let daily := dailyAgg df
      if daily.isEmpty then
        Except.ok (Fig.emptyFigure "No daily delay cost data after filtering")
      else
        let selected_year := (daily.map (·.year)).foldl max 0
        let year_df := daily.filter (fun r => r.year == selected_year)
        Except.ok (Fig.calendarHeatmap selected_year
          ((List.range 12).map (fun i => monthGrid year_df (i + 1))))

/-- `update_route_analysis`: a missing `outputs/full_dataset_for_tableau.csv`
is reported as a placeholder figure before the `try`; any exception raised
inside the body is caught and rendered as
`_empty_figure(f"Error loading full dataset: ...")`. -/
def update_route_analysis (full_csv : Option FlightCsv)
    (carriers_to_filter : Option (List String)) : Fig :=
  match full_csv with
  | none => Fig.emptyFigure "Full dataset CSV not found (outputs/full_dataset_for_tableau.csv)"
  | some csv =>
    match analysisBody csv carriers_to_filter with
    | Except.ok fig => fig
    | Except.error e => Fig.emptyFigure ("Error loading full dataset: " ++ e)

/-! ## Supporting lemmas -/

theorem splitOnChar_not_mem {c : Char} {l : List Char} (h : c ∉ l) :
    splitOnChar c l = [l] := by
  induction l with
  | nil => rfl
  | cons x xs ih =>
    have hx : ¬ x = c := by
      intro hc
      exact h (by simp [hc])
    have hxs : c ∉ xs := fun hc => h (List.mem_cons_of_mem _ hc)
    simp only [splitOnChar, if_neg hx, ih hxs]

theorem splitOnChar_append {c : Char} {a b : List Char} (h : c ∉ a) :
    splitOnChar c (a ++ c :: b) = a :: splitOnChar c b := by
  induction a with
  | nil => simp [splitOnChar]
  | cons x xs ih =>
    have hx : ¬ x = c := by
      intro hc
      exact h (by simp [hc])
    have hxs : c ∉ xs := fun hc => h (List.mem_cons_of_mem _ hc)
    simp only [List.cons_append, splitOnChar, List.append_eq, if_neg hx, ih hxs]

/-! ## Claim theorems -/

/-- C2: for every valid `"AAA-BBB"` route string (two dash-free halves joined
by `'-'`), `parse_route_codes` returns both halves trimmed and uppercased; for
every string with fewer than two dash-separated segments (equivalently, any
string without a `'-'`) and for a missing/null value it returns
`(None, None)` without raising. -/
theorem parse_route_codes_spec (a b s : String)
    (ha : '-' ∉ a.data) (hb : '-' ∉ b.data) (hs : '-' ∉ s.data) :
    parseRouteCodes (some (a ++ "-" ++ b)) =
      (some (pyUpper (pyStrip a)), some (pyUpper (pyStrip b))) ∧
    parseRouteCodes (some s) = (none, none) ∧
    parseRouteCodes none = (none, none) := by
  refine ⟨?_, ?_, rfl⟩
  · have hdata : (a ++ "-" ++ b).data = a.data ++ '-' :: b.data := by
      simp [String.data_append]
    simp only [parseRouteCodes, hdata, splitOnChar_append ha, splitOnChar_not_mem hb]
    rfl
  · simp only [parseRouteCodes, splitOnChar_not_mem hs]
    rfl

/-- A concrete instance of `parse_route_codes_spec`: `"jfk - lax"` parses to
`("JFK", "LAX")` and the dash-free `"JFKLAX"` parses to `(None, None)`. -/
theorem parse_route_codes_spec_witness :
    parseRouteCodes (some ("jfk " ++ "-" ++ " lax")) = (some "JFK", some "LAX") ∧
    parseRouteCodes (some "JFKLAX") = (none, none) := by
  have h := parse_route_codes_spec "jfk " " lax" "JFKLAX" (by decide) (by decide) (by decide)
  refine ⟨?_, h.2.1⟩
  rw [h.1]
  decide

/-- C4: for every non-empty airport code, `get_coordinates` returns the
external table's `(lat, lon)` on an exact `iata` match; otherwise the fallback
mapping's pair on an exact key match; otherwise `(None, None)`. In particular
a code present in both sources resolves to the external table's value. -/
theorem get_coordinates_spec (tbl : List CoordRow) (code : String) (h : code ≠ "") :
    (∀ row, tbl.find? (fun r => r.iata == code) = some row →
        getCoordinates (some tbl) (some code) = (some row.lat, some row.lon)) ∧
    (tbl.find? (fun r => r.iata == code) = none →
        ∀ la lo, fallbackLookup code = some (la, lo) →
          getCoordinates (some tbl) (some code) = (some la, some lo)) ∧
    (tbl.find? (fun r => r.iata == code) = none → fallbackLookup code = none →
        getCoordinates (some tbl) (some code) = (none, none)) := by
  refine ⟨?_, ?_, ?_⟩
  · intro row hrow
    simp [getCoordinates, if_neg h, hrow]
  · intro hnone la lo hfb
    simp [getCoordinates, if_neg h, hnone, fallbackPair, hfb]
  · intro hnone hfb
    simp [getCoordinates, if_neg h, hnone, fallbackPair, hfb]

/-- A concrete instance of `get_coordinates_spec`: a code present in both the
external table and the fallback mapping (`"ATL"`, whose fallback entry is
`(33.6407, -84.4277)`) resolves to the external table's differing value. -/
theorem get_coordinates_spec_witness :
    getCoordinates (some [{ iata := "ATL", lat := 1, lon := 2 }]) (some "ATL") =
      (some 1, some 2) ∧
    fallbackLookup "ATL" = some (33.6407, -84.4277) := by
  have h := get_coordinates_spec [{ iata := "ATL", lat := 1, lon := 2 }] "ATL" (by decide)
  exact ⟨h.1 { iata := "ATL", lat := 1, lon := 2 } (by rfl), by rfl⟩

/-- C3: route sampling is deterministic — with the value column, carrier
filter, target count and input table fixed and the random seed fixed at 42,
the selection is independent of the ambient random-generator state, so any two
invocations select identical route lists (hence identical sets). -/
theorem sampleRoutes_deterministic (ambient₁ ambient₂ : Nat)
    (carriers : Option (List String)) (top_n : Option Nat) (rows : List RouteRow) :
    sampleRoutes (fun r => r.total_delay_cost) ambient₁ carriers top_n rows =
      sampleRoutes (fun r => r.total_delay_cost) ambient₂ carriers top_n rows := rfl

/-- C8: on the two-route table `[JFK-LAX (500 flights, cost 50000),
BOS-MIA (10 flights, cost 200)]` the minimum-flight filter (25) drops the
second row entirely, and sampling with `N = 10` returns exactly the JFK-LAX
route. -/
theorem min_flights_scenario :
    eligibleRoutes none
        [{ route := "JFK-LAX", primary_carrier := "AA", num_flights := 500,
           total_delay_cost := 50000, avg_delay_cost := 0, avg_delay_min := 0,
           delay_rate := 0 },
         { route := "BOS-MIA", primary_carrier := "B6", num_flights := 10,
           total_delay_cost := 200, avg_delay_cost := 0, avg_delay_min := 0,
           delay_rate := 0 }] =
      [{ route := "JFK-LAX", primary_carrier := "AA", num_flights := 500,
         total_delay_cost := 50000, avg_delay_cost := 0, avg_delay_min := 0,
         delay_rate := 0 }] ∧
    sampleRoutes (fun r => r.total_delay_cost) 0 none (some 10)
        [{ route := "JFK-LAX", primary_carrier := "AA", num_flights := 500,
           total_delay_cost := 50000, avg_delay_cost := 0, avg_delay_min := 0,
           delay_rate := 0 },
         { route := "BOS-MIA", primary_carrier := "B6", num_flights := 10,
           total_delay_cost := 200, avg_delay_cost := 0, avg_delay_min := 0,
           delay_rate := 0 }] =
      [{ route := "JFK-LAX", primary_carrier := "AA", num_flights := 500,
         total_delay_cost := 50000, avg_delay_cost := 0, avg_delay_min := 0,
         delay_rate := 0 }] := by
  exact ⟨by decide, by decide⟩

/-- The cost stored at a key of the airports dict, 0 when absent. -/
def aggCost (x : Option AirportAgg) : ℚ := (x.map (·.total_cost)).getD 0

/-- The flight count stored at a key of the airports dict, 0 when absent. -/
def aggFlights (x : Option AirportAgg) : Int := (x.map (·.total_flights)).getD 0

/-- The route count stored at a key of the airports dict, 0 when absent. -/
def aggRoutes (x : Option AirportAgg) : Nat := (x.map (·.routes)).getD 0

theorem bumpAirport_agg (m : Option String → Option AirportAgg) (code : Option String)
    (la lo : Option ℚ) (cost : ℚ) (flights : Int) (k : Option String) :
    aggCost ((bumpAirport m code la lo cost flights) k) =
      aggCost (m k) + (if k = code then cost else 0) ∧
    aggFlights ((bumpAirport m code la lo cost flights) k) =
      aggFlights (m k) + (if k = code then flights else 0) ∧
    aggRoutes ((bumpAirport m code la lo cost flights) k) =
      aggRoutes (m k) + (if k = code then 1 else 0) ∧
    ((bumpAirport m code la lo cost flights) k = none ↔ m k = none ∧ ¬ k = code) := by
  by_cases hk : k = code
  · subst hk
    cases hm : m k <;>
      simp [bumpAirport, hm, aggCost, aggFlights, aggRoutes]
  · cases hm : m k <;>
      simp [bumpAirport, hm, hk, aggCost, aggFlights, aggRoutes]

theorem buildAirports_go (recs : List MapRecord) :
    ∀ (m : Option String → Option AirportAgg) (k : Option String),
      aggCost ((recs.foldl airportStep m) k) =
        aggCost (m k) + ((recs.filter (fun r => r.origin == k)).map (·.delay_cost)).sum
                      + ((recs.filter (fun r => r.dest == k)).map (·.delay_cost)).sum ∧
      aggFlights ((recs.foldl airportStep m) k) =
        aggFlights (m k) + ((recs.filter (fun r => r.origin == k)).map (·.num_flights)).sum
                         + ((recs.filter (fun r => r.dest == k)).map (·.num_flights)).sum ∧
      aggRoutes ((recs.foldl airportStep m) k) =
        aggRoutes (m k) + recs.countP (fun r => r.origin == k)
                        + recs.countP (fun r => r.dest == k) ∧
      ((recs.foldl airportStep m) k = none ↔
        m k = none ∧ recs.countP (fun r => r.origin == k) = 0 ∧
          recs.countP (fun r => r.dest == k) = 0) := by
  induction recs with
  | nil =>
    intro m k
    simp
  | cons rec recs ih =>
    intro m k
    have hstep := bumpAirport_agg
      (bumpAirport m rec.origin rec.origin_lat rec.origin_lon rec.delay_cost rec.num_flights)
      rec.dest rec.dest_lat rec.dest_lon rec.delay_cost rec.num_flights k
    have hstep0 := bumpAirport_agg m rec.origin rec.origin_lat rec.origin_lon
      rec.delay_cost rec.num_flights k
    obtain ⟨h1, h2, h3, h4⟩ := ih (airportStep m rec) k
    have hc : aggCost ((airportStep m rec) k) =
        aggCost (m k) + (if k = rec.origin then rec.delay_cost else 0)
                      + (if k = rec.dest then rec.delay_cost else 0) := by
      rw [airportStep, hstep.1, hstep0.1]
    have hf : aggFlights ((airportStep m rec) k) =
        aggFlights (m k) + (if k = rec.origin then rec.num_flights else 0)
                         + (if k = rec.dest then rec.num_flights else 0) := by
      rw [airportStep, hstep.2.1, hstep0.2.1]
    have hr : aggRoutes ((airportStep m rec) k) =
        aggRoutes (m k) + (if k = rec.origin then 1 else 0)
                        + (if k = rec.dest then 1 else 0) := by
      rw [airportStep, hstep.2.2.1, hstep0.2.2.1]
    have hn : ((airportStep m rec) k = none ↔
        m k = none ∧ ¬ k = rec.origin ∧ ¬ k = rec.dest) := by
      rw [airportStep, hstep.2.2.2, hstep0.2.2.2]
      tauto
    rw [List.foldl_cons]
    refine ⟨?_, ?_, ?_, ?_⟩
    · rw [h1, hc]
      by_cases ho : k = rec.origin
      · by_cases hd : k = rec.dest
        · simp [List.filter_cons, ← ho, ← hd]
          try ring
        · simp [List.filter_cons, ← ho, hd, Ne.symm hd]
          try ring
      · by_cases hd : k = rec.dest
        · simp [List.filter_cons, ho, Ne.symm ho, ← hd]
          try ring
        · simp [List.filter_cons, ho, Ne.symm ho, hd, Ne.symm hd]
          try ring
    · rw [h2, hf]
      by_cases ho : k = rec.origin
      · by_cases hd : k = rec.dest
        · simp [List.filter_cons, ← ho, ← hd]
          try ring
        · simp [List.filter_cons, ← ho, hd, Ne.symm hd]
          try ring
      · by_cases hd : k = rec.dest
        · simp [List.filter_cons, ho, Ne.symm ho, ← hd]
          try ring
        · simp [List.filter_cons, ho, Ne.symm ho, hd, Ne.symm hd]
          try ring
    · rw [h3, hr]
      by_cases ho : k = rec.origin
      · by_cases hd : k = rec.dest
        · simp [List.countP_cons, ← ho, ← hd]
          try ring
        · simp [List.countP_cons, ← ho, hd, Ne.symm hd]
          try ring
      · by_cases hd : k = rec.dest
        · simp [List.countP_cons, ho, Ne.symm ho, ← hd]
          try ring
        · simp [List.countP_cons, ho, Ne.symm ho, hd, Ne.symm hd]
          try ring
    · rw [h4, hn]
      by_cases ho : k = rec.origin
      · by_cases hd : k = rec.dest
        · simp [List.countP_cons, ← ho, ← hd]
        · simp [List.countP_cons, ← ho, hd, Ne.symm hd]
      · by_cases hd : k = rec.dest
        · simp [List.countP_cons, ho, Ne.symm ho, ← hd]
        · simp [List.countP_cons, ho, Ne.symm ho, hd, Ne.symm hd]

/-- C6: the airport aggregator credits each map record's delay cost, flight
count and one connection to both its origin and its destination aggregate
(creating the aggregate on first reference, so a key is absent exactly when no
record touches it); each airport's totals equal the sums over all records
touching it as origin plus the sums over all records touching it as
destination — the flight count is double-counted across the two endpoints by
design. -/
theorem airport_aggregation_spec (recs : List MapRecord) (k : Option String) :
    (buildAirports recs k = none ↔
      recs.countP (fun r => r.origin == k) = 0 ∧
        recs.countP (fun r => r.dest == k) = 0) ∧
    ∀ a, buildAirports recs k = some a →
      a.total_cost =
        ((recs.filter (fun r => r.origin == k)).map (·.delay_cost)).sum +
        ((recs.filter (fun r => r.dest == k)).map (·.delay_cost)).sum ∧
      a.total_flights =
        ((recs.filter (fun r => r.origin == k)).map (·.num_flights)).sum +
        ((recs.filter (fun r => r.dest == k)).map (·.num_flights)).sum ∧
      a.routes =
        recs.countP (fun r => r.origin == k) + recs.countP (fun r => r.dest == k) := by
  obtain ⟨h1, h2, h3, h4⟩ := buildAirports_go recs (fun _ => none) k
  constructor
  · simpa [buildAirports] using h4
  · intro a ha
    have hb : recs.foldl airportStep (fun _ => none) k = some a := ha
    rw [hb] at h1 h2 h3
    simp [aggCost, aggFlights, aggRoutes] at h1 h2 h3
    exact ⟨h1, h2, h3⟩

unseal Rat.add in
/-- A concrete instance of `airport_aggregation_spec`: airport `"AAA"`,
touched as origin by one record (cost 10, 5 flights) and as destination by
another (cost 7, 3 flights), aggregates to cost 17, 8 flights, 2 routes. -/
theorem airport_aggregation_spec_witness :
    ((17 : ℚ), (8 : Int), (2 : Nat)) =
      (((([⟨"AAA-BBB", some "AAA", some "BBB", some 1, some 2, some 3, some 4,
              10, 5, 0, 0, "AA"⟩,
           ⟨"CCC-AAA", some "CCC", some "AAA", some 5, some 6, some 1, some 2,
              7, 3, 0, 0, "B6"⟩] :
            List MapRecord).filter (fun r => r.origin == some "AAA")).map
              (·.delay_cost)).sum +
        ((([⟨"AAA-BBB", some "AAA", some "BBB", some 1, some 2, some 3, some 4,
              10, 5, 0, 0, "AA"⟩,
            ⟨"CCC-AAA", some "CCC", some "AAA", some 5, some 6, some 1, some 2,
              7, 3, 0, 0, "B6"⟩] :
             List MapRecord).filter (fun r => r.dest == some "AAA")).map
               (·.delay_cost)).sum,
       8, 2) := by
  have h := (airport_aggregation_spec
    [⟨"AAA-BBB", some "AAA", some "BBB", some 1, some 2, some 3, some 4,
        10, 5, 0, 0, "AA"⟩,
     ⟨"CCC-AAA", some "CCC", some "AAA", some 5, some 6, some 1, some 2,
        7, 3, 0, 0, "B6"⟩] (some "AAA")).2
    ⟨some 1, some 2, 17, 8, 2⟩
    (by decide)
  rw [← h.1]

theorem buildCoordsData_cons (value_key : RouteRow → ℚ)
    (coords_df : Option (List CoordRow))
    (row : RouteRow) (rows : List RouteRow) :
    buildCoordsData value_key coords_df (row :: rows) =
      if (getCoordinates coords_df (parseRouteCodes (some row.route)).1).1.isSome &&
         (getCoordinates coords_df (parseRouteCodes (some row.route)).1).2.isSome &&
         (getCoordinates coords_df (parseRouteCodes (some row.route)).2).1.isSome &&
         (getCoordinates coords_df (parseRouteCodes (some row.route)).2).2.isSome then
        { route := row.route,
          origin := (parseRouteCodes (some row.route)).1,
          dest := (parseRouteCodes (some row.route)).2,
          origin_lat := (getCoordinates coords_df (parseRouteCodes (some row.route)).1).1,
          origin_lon := (getCoordinates coords_df (parseRouteCodes (some row.route)).1).2,
          dest_lat := (getCoordinates coords_df (parseRouteCodes (some row.route)).2).1,
          dest_lon := (getCoordinates coords_df (parseRouteCodes (some row.route)).2).2,
          delay_cost := if value_key row < (0 : ℚ) then (0 : ℚ) else value_key row,
          num_flights := max 0 row.num_flights,
          avg_delay_min := row.avg_delay_min, delay_rate := row.delay_rate,
          carrier := row.primary_carrier } :: buildCoordsData value_key coords_df rows
      else buildCoordsData value_key coords_df rows := rfl

theorem buildCoordsData_fields (value_key : RouteRow → ℚ)
    (coords_df : Option (List CoordRow)) (rows : List RouteRow) :
    ∀ rec ∈ buildCoordsData value_key coords_df rows,
      rec.origin_lat = (getCoordinates coords_df (parseRouteCodes (some rec.route)).1).1 ∧
      rec.origin_lon = (getCoordinates coords_df (parseRouteCodes (some rec.route)).1).2 ∧
      rec.dest_lat = (getCoordinates coords_df (parseRouteCodes (some rec.route)).2).1 ∧
      rec.dest_lon = (getCoordinates coords_df (parseRouteCodes (some rec.route)).2).2 ∧
      rec.origin_lat.isSome ∧ rec.origin_lon.isSome ∧
      rec.dest_lat.isSome ∧ rec.dest_lon.isSome := by
  induction rows with
  | nil =>
    intro rec h
    simp [buildCoordsData] at h
  | cons row rows ih =>
    intro rec hrec
    rw [buildCoordsData_cons] at hrec
    by_cases hguard :
        ((getCoordinates coords_df (parseRouteCodes (some row.route)).1).1.isSome &&
         (getCoordinates coords_df (parseRouteCodes (some row.route)).1).2.isSome &&
         (getCoordinates coords_df (parseRouteCodes (some row.route)).2).1.isSome &&
         (getCoordinates coords_df (parseRouteCodes (some row.route)).2).2.isSome) = true
    · rw [if_pos hguard] at hrec
      rcases List.mem_cons.mp hrec with hrec | hrec
      · subst hrec
        simp only [Bool.and_eq_true] at hguard
        exact ⟨rfl, rfl, rfl, rfl, hguard.1.1.1, hguard.1.1.2, hguard.1.2, hguard.2⟩
      · exact ih rec hrec
    · rw [if_neg hguard] at hrec
      exact ih rec hrec

/-- C5: every record in the geographic map output has all four endpoint
coordinates resolved, and a route either of whose endpoints resolves to no
coordinate in either source is dropped from the map output (without any
error), its route identifier appearing nowhere in the output. -/
theorem map_records_resolved (value_key : RouteRow → ℚ)
    (coords_df : Option (List CoordRow)) (rows : List RouteRow) :
    (∀ rec ∈ buildCoordsData value_key coords_df rows,
        rec.origin_lat.isSome ∧ rec.origin_lon.isSome ∧
        rec.dest_lat.isSome ∧ rec.dest_lon.isSome) ∧
    (∀ row ∈ rows,
        ((getCoordinates coords_df (parseRouteCodes (some row.route)).1).1 = none ∨
         (getCoordinates coords_df (parseRouteCodes (some row.route)).1).2 = none ∨
         (getCoordinates coords_df (parseRouteCodes (some row.route)).2).1 = none ∨
         (getCoordinates coords_df (parseRouteCodes (some row.route)).2).2 = none) →
        row.route ∉ (buildCoordsData value_key coords_df rows).map (·.route)) := by
  constructor
  · intro rec hrec
    obtain ⟨-, -, -, -, h5, h6, h7, h8⟩ :=
      buildCoordsData_fields value_key coords_df rows rec hrec
    exact ⟨h5, h6, h7, h8⟩
  · intro row hrow hbad hmem
    obtain ⟨rec, hrec, hroute⟩ := List.mem_map.mp hmem
    obtain ⟨h1, h2, h3, h4, h5, h6, h7, h8⟩ :=
      buildCoordsData_fields value_key coords_df rows rec hrec
    rw [hroute] at h1 h2 h3 h4
    rcases hbad with hb | hb | hb | hb
    · rw [h1, hb] at h5
      simp at h5
    · rw [h2, hb] at h6
      simp at h6
    · rw [h3, hb] at h7
      simp at h7
    · rw [h4, hb] at h8
      simp at h8

/-- A concrete instance of `map_records_resolved`: with no external table, the
route `"JFK-ZZZ"` (code `"ZZZ"` absent from the fallback mapping too) is
dropped from the map output. -/
theorem map_records_resolved_witness :
    ("JFK-ZZZ" : String) ∉
      (buildCoordsData (fun r => r.total_delay_cost) none
        [{ route := "JFK-ZZZ", primary_carrier := "AA", num_flights := 100,
           total_delay_cost := 1000, avg_delay_cost := 0, avg_delay_min := 0,
           delay_rate := 0 }]).map (·.route) := by
  exact (map_records_resolved (fun r => r.total_delay_cost) none
    [{ route := "JFK-ZZZ", primary_carrier := "AA", num_flights := 100,
       total_delay_cost := 1000, avg_delay_cost := 0, avg_delay_min := 0,
       delay_rate := 0 }]).2
    { route := "JFK-ZZZ", primary_carrier := "AA", num_flights := 100,
      total_delay_cost := 1000, avg_delay_cost := 0, avg_delay_min := 0,
      delay_rate := 0 }
    (by simp)
    (Or.inr (Or.inr (Or.inl (by decide))))

theorem chunkWeeksGo_nil (n : Nat) : chunkWeeksGo n [] = [] := by
  cases n <;> rfl

theorem chunkWeeksGo_fuel {n m : Nat} {l : List (Option ℚ)}
    (h1 : l.length ≤ n) (h2 : l.length ≤ m) : chunkWeeksGo n l = chunkWeeksGo m l := by
  induction n generalizing m l with
  | zero =>
    have : l = [] := List.eq_nil_of_length_eq_zero (Nat.le_zero.mp h1)
    subst this
    rw [chunkWeeksGo_nil, chunkWeeksGo_nil]
  | succ n ih =>
    cases l with
    | nil => rw [chunkWeeksGo_nil, chunkWeeksGo_nil]
    | cons c cs =>
      cases m with
      | zero =>
        simp only [List.length_cons] at h2
        omega
      | succ m =>
        simp only [chunkWeeksGo]
        congr 1
        apply ih <;> (simp only [List.length_drop, List.length_cons] at *; omega)

theorem chunkWeeks_cons (c : Option ℚ) (cs : List (Option ℚ)) :
    chunkWeeks (c :: cs) =
      ((c :: cs).take 7 ++ List.replicate (7 - ((c :: cs).take 7).length) none) ::
        chunkWeeks ((c :: cs).drop 7) := by
  show chunkWeeksGo (c :: cs).length (c :: cs) = _
  simp only [List.length_cons, chunkWeeksGo]
  congr 1
  exact chunkWeeksGo_fuel
    (by simp only [List.length_drop, List.length_cons]; omega) (le_refl _)

theorem chunkWeeksGo_length (n : Nat) :
    ∀ (l : List (Option ℚ)), l.length ≤ n →
      (chunkWeeksGo n l).length = (l.length + 6) / 7 := by
  induction n with
  | zero =>
    intro l h
    have : l = [] := List.eq_nil_of_length_eq_zero (Nat.le_zero.mp h)
    subst this
    rw [chunkWeeksGo_nil]
    rfl
  | succ n ih =>
    intro l h
    cases l with
    | nil =>
      rw [chunkWeeksGo_nil]
      rfl
    | cons c cs =>
      simp only [chunkWeeksGo, List.length_cons]
      rw [ih ((c :: cs).drop 7)
        (by simp only [List.length_drop, List.length_cons] at *; omega)]
      simp only [List.length_drop, List.length_cons]
      omega

theorem chunkWeeks_length (l : List (Option ℚ)) :
    (chunkWeeks l).length = (l.length + 6) / 7 :=
  chunkWeeksGo_length l.length l (le_refl _)

theorem chunkWeeksGo_mem_length (n : Nat) :
    ∀ (l : List (Option ℚ)), l.length ≤ n →
      ∀ w ∈ chunkWeeksGo n l, w.length = 7 := by
  induction n with
  | zero =>
    intro l h w hw
    have : l = [] := List.eq_nil_of_length_eq_zero (Nat.le_zero.mp h)
    subst this
    rw [chunkWeeksGo_nil] at hw
    simp at hw
  | succ n ih =>
    intro l h w hw
    cases l with
    | nil =>
      rw [chunkWeeksGo_nil] at hw
      simp at hw
    | cons c cs =>
      simp only [chunkWeeksGo] at hw
      rcases List.mem_cons.mp hw with hw | hw
      · subst hw
        simp only [List.length_append, List.length_replicate, List.length_take,
          List.length_cons]
        omega
      · exact ih _ (by simp only [List.length_drop, List.length_cons] at *; omega) w hw

theorem chunkWeeks_mem_length (l : List (Option ℚ)) :
    ∀ w ∈ chunkWeeks l, w.length = 7 :=
  chunkWeeksGo_mem_length l.length l (le_refl _)

theorem chunkWeeksGo_flatten (n : Nat) :
    ∀ (l : List (Option ℚ)), l.length ≤ n →
      (chunkWeeksGo n l).flatten =
        l ++ List.replicate ((7 - l.length % 7) % 7) none := by
  induction n with
  | zero =>
    intro l h
    have hl : l = [] := List.eq_nil_of_length_eq_zero (Nat.le_zero.mp h)
    subst hl
    rw [chunkWeeksGo_nil]
    rfl
  | succ n ih =>
    intro l h
    cases l with
    | nil =>
      rw [chunkWeeksGo_nil]
      rfl
    | cons c cs =>
      simp only [chunkWeeksGo, List.flatten_cons]
      rw [ih ((c :: cs).drop 7)
        (by simp only [List.length_drop, List.length_cons] at *; omega)]
      by_cases h7 : (c :: cs).length ≤ 7
      · have hdrop : (c :: cs).drop 7 = [] := List.drop_eq_nil_of_le h7
        have htake : (c :: cs).take 7 = c :: cs := List.take_of_length_le h7
        rw [hdrop, htake]
        simp only [List.length_nil, Nat.zero_mod, Nat.sub_zero, Nat.mod_self,
          List.replicate_zero, List.append_nil, List.nil_append, List.append_assoc,
          List.length_cons]
        congr 2
        simp only [List.length_cons] at h7
        omega
      · simp only [List.length_cons] at h7
        have htake : ((c :: cs).take 7).length = 7 := by
          simp only [List.length_take, List.length_cons]
          omega
        rw [htake]
        simp only [Nat.sub_self, List.replicate_zero, List.append_nil]
        rw [← List.append_assoc, List.take_append_drop]
        congr 2
        simp only [List.length_drop, List.length_cons]
        omega

theorem chunkWeeks_flatten (l : List (Option ℚ)) :
    (chunkWeeks l).flatten = l ++ List.replicate ((7 - l.length % 7) % 7) none :=
  chunkWeeksGo_flatten l.length l (le_refl _)

theorem chunkWeeks_head7 {l : List (Option ℚ)} (h : 7 ≤ l.length) :
    (chunkWeeks l).head? = some (l.take 7) := by
  cases l with
  | nil => simp at h
  | cons c cs =>
    rw [chunkWeeks_cons]
    have htake : ((c :: cs).take 7).length = 7 := by
      simp only [List.length_take, List.length_cons]
      simp only [List.length_cons] at h
      omega
    rw [htake]
    simp

/-- C7: for every month with at least one daily cost record, `month_matrix`
builds a grid whose rows are Monday-start calendar weeks with columns
Mon..Sun: every row has exactly 7 cells, there are `⌈(pad + days)/7⌉` rows,
and the grid flattens to `pad` leading empty cells (the weekdays before the
1st), one cell per day 1..last holding that date's cost — 0 when the date has
no record — and empty cells padding out the last week; in particular for a
31-day month starting on a Wednesday there are exactly 5 (hence 5 or 6)
week-rows, the first row's Mon and Tue cells are padding and its Wed cell is
day 1's cost. -/
theorem month_matrix_spec (first : DayRec) (rest : List DayRec) :
    (∀ week ∈ month_matrix (first :: rest), week.length = 7) ∧
    (month_matrix (first :: rest)).length =
      (firstWeekday first.year first.month + daysInMonth first.year first.month + 6) / 7 ∧
    (month_matrix (first :: rest)).flatten =
      List.replicate (firstWeekday first.year first.month) none ++
        (List.range (daysInMonth first.year first.month)).map
          (fun i => some (dayCost (first :: rest) first.year first.month (i + 1))) ++
        List.replicate
          ((7 - (firstWeekday first.year first.month +
              daysInMonth first.year first.month) % 7) % 7) none ∧
    (∀ d, (first :: rest).find?
        (fun r => r.year == first.year && r.month == first.month && r.day == d) = none →
      dayCost (first :: rest) first.year first.month d = 0) ∧
    (daysInMonth first.year first.month = 31 → firstWeekday first.year first.month = 2 →
      ((month_matrix (first :: rest)).length = 5 ∨
        (month_matrix (first :: rest)).length = 6) ∧
      (month_matrix (first :: rest)).head? =
        some (none :: none ::
          (List.range 5).map
            (fun i => some (dayCost (first :: rest) first.year first.month (i + 1))))) := by
  have hmm : month_matrix (first :: rest) =
      chunkWeeks (List.replicate (firstWeekday first.year first.month) (none : Option ℚ) ++
        (List.range (daysInMonth first.year first.month)).map
          (fun i => some (dayCost (first :: rest) first.year first.month (i + 1)))) := by
    unfold month_matrix
    simp only [List.head?_cons, Option.map_some', Option.getD_some]
  have hlen : (List.replicate (firstWeekday first.year first.month) (none : Option ℚ) ++
      (List.range (daysInMonth first.year first.month)).map
        (fun i => some (dayCost (first :: rest) first.year first.month (i + 1)))).length
      = firstWeekday first.year first.month + daysInMonth first.year first.month := by
    simp
  refine ⟨?_, ?_, ?_, ?_, ?_⟩
  · rw [hmm]
    exact chunkWeeks_mem_length _
  · rw [hmm, chunkWeeks_length, hlen]
  · rw [hmm, chunkWeeks_flatten, hlen, List.append_assoc]
  · intro d h
    simp [dayCost, h]
  · intro h31 hw
    constructor
    · left
      rw [hmm, chunkWeeks_length, hlen, h31, hw]
    · rw [hmm, hw, h31, chunkWeeks_head7 (by simp)]
      rw [List.take_append_eq_append_take]
      simp [← List.map_take, List.take_range]

/-- A concrete instance of `month_matrix_spec`: May 2024 (31 days, the 1st a
Wednesday) with a single record lays out as 5 week-rows. -/
theorem month_matrix_spec_witness :
    (month_matrix [{ year := 2024, month := 5, day := 1, delay_cost := 42 }]).length = 5 ∨
    (month_matrix [{ year := 2024, month := 5, day := 1, delay_cost := 42 }]).length = 6 :=
  ((month_matrix_spec { year := 2024, month := 5, day := 1, delay_cost := 42 } []).2.2.2.2
    (by decide) (by decide)).1

theorem daysInMonth_ge (y m : Nat) : 28 ≤ daysInMonth y m := by
  unfold daysInMonth
  split_ifs <;> norm_num

theorem month_matrix_length_ge (df : List DayRec) : 4 ≤ (month_matrix df).length := by
  unfold month_matrix
  dsimp only
  rw [chunkWeeks_length]
  simp only [List.length_append, List.length_replicate, List.length_map,
    List.length_range]
  have := daysInMonth_ge ((df.head?.map (·.year)).getD 0) ((df.head?.map (·.month)).getD 0)
  omega

/-- C10: a month of the selected year with no daily cost records renders as a
single week-row of seven zero-cost cells, while a month with at least one
record gets a padded full-month grid of at least four week-rows — a different
grid shape. -/
theorem empty_month_single_row (year_df : List DayRec) (m : Nat) :
    (year_df.filter (fun r => r.month == m) = [] →
      monthGrid year_df m = [List.replicate 7 (some 0)]) ∧
    (year_df.filter (fun r => r.month == m) ≠ [] →
      4 ≤ (monthGrid year_df m).length ∧
      monthGrid year_df m ≠ [List.replicate 7 (some 0)]) := by
  constructor
  · intro h
    simp [monthGrid, h]
  · intro h
    have hgrid : monthGrid year_df m =
        month_matrix (year_df.filter (fun r => r.month == m)) := by
      unfold monthGrid
      dsimp only
      rw [if_neg (by simpa [List.isEmpty_iff] using h)]
    rw [hgrid]
    refine ⟨month_matrix_length_ge _, fun heq => ?_⟩
    have h4 := month_matrix_length_ge (year_df.filter (fun r => r.month == m))
    rw [heq] at h4
    simp at h4

/-- A concrete instance of `empty_month_single_row`: with one January record,
February's grid is the single zero row while January's has at least 4 rows. -/
theorem empty_month_single_row_witness :
    monthGrid [{ year := 2024, month := 1, day := 15, delay_cost := 3 }] 2 =
      [List.replicate 7 (some 0)] ∧
    4 ≤ (monthGrid [{ year := 2024, month := 1, day := 15, delay_cost := 3 }] 1).length := by
  constructor
  · exact (empty_month_single_row
      [{ year := 2024, month := 1, day := 15, delay_cost := 3 }] 2).1 (by decide)
  · exact ((empty_month_single_row
      [{ year := 2024, month := 1, day := 15, delay_cost := 3 }] 1).2 (by decide)).1

/-- C9: no exception escapes the core callbacks. A missing source file is
reported as a rendered placeholder figure, and any error raised inside a
callback body is caught and returned as a valid empty-figure output carrying
the error message, never propagated to the caller. -/
theorem callbacks_never_raise :
    (∀ (top_n : Option Nat) (cf : Option (List String)) (ambient : Nat)
        (coords : Option (List CoordRow)),
      update_network_performance none top_n cf ambient coords =
        Fig.emptyFigure "Route summary CSV not found (outputs/route_summary.csv)") ∧
    (∀ (csv : RouteCsv) (top_n : Option Nat) (cf : Option (List String))
        (ambient : Nat) (coords : Option (List CoordRow)) (e : String),
      networkBody csv top_n cf ambient coords = Except.error e →
        update_network_performance (some csv) top_n cf ambient coords =
          Fig.emptyFigure ("Error creating network map: " ++ e)) ∧
    (∀ cf : Option (List String),
      update_route_analysis none cf =
        Fig.emptyFigure "Full dataset CSV not found (outputs/full_dataset_for_tableau.csv)") ∧
    (∀ (csv : FlightCsv) (cf : Option (List String)) (e : String),
      analysisBody csv cf = Except.error e →
        update_route_analysis (some csv) cf =
          Fig.emptyFigure ("Error loading full dataset: " ++ e)) := by
  refine ⟨fun _ _ _ _ => rfl, ?_, fun _ => rfl, ?_⟩
  · intro csv top_n cf ambient coords e he
    unfold update_network_performance
    dsimp only
    rw [he]
  · intro csv cf e he
    unfold update_route_analysis
    dsimp only
    rw [he]

/-- A concrete instance of `callbacks_never_raise`: a route summary file
whose `num_flights` column is missing makes the body raise a `KeyError`,
which the callback catches and renders as an empty figure. -/
theorem callbacks_never_raise_witness :
    update_network_performance
        (some { columns := ["route"],
                rows := [{ route := "JFK-LAX", primary_carrier := "AA",
                           num_flights := 500, total_delay_cost := 50000,
                           avg_delay_cost := 0, avg_delay_min := 0,
                           delay_rate := 0 }] })
        (some 10) none 0 none =
      Fig.emptyFigure ("Error creating network map: " ++ "KeyError: num_flights") :=
  callbacks_never_raise.2.1
    { columns := ["route"],
      rows := [{ route := "JFK-LAX", primary_carrier := "AA", num_flights := 500,
                 total_delay_cost := 50000, avg_delay_cost := 0, avg_delay_min := 0,
                 delay_rate := 0 }] }
    (some 10) none 0 none "KeyError: num_flights" rfl

theorem dedupeByRouteGo_fuel {n m : Nat} {l : List RouteRow}
    (h1 : l.length ≤ n) (h2 : l.length ≤ m) :
    dedupeByRouteGo n l = dedupeByRouteGo m l := by
  induction n generalizing m l with
  | zero =>
    have : l = [] := List.eq_nil_of_length_eq_zero (Nat.le_zero.mp h1)
    subst this
    cases m <;> rfl
  | succ n ih =>
    cases l with
    | nil => cases m <;> rfl
    | cons r rs =>
      cases m with
      | zero =>
        simp only [List.length_cons] at h2
        omega
      | succ m =>
        simp only [dedupeByRouteGo]
        congr 1
        have hf := List.length_filter_le (fun x => x.route != r.route) rs
        apply ih <;> (simp only [List.length_cons] at *; omega)

theorem dedupeByRoute_cons (r : RouteRow) (rs : List RouteRow) :
    dedupeByRoute (r :: rs) =
      r :: dedupeByRoute (rs.filter (fun x => x.route != r.route)) := by
  show dedupeByRouteGo (r :: rs).length (r :: rs) = _
  simp only [List.length_cons, dedupeByRouteGo]
  congr 1
  exact dedupeByRouteGo_fuel (List.length_filter_le _ _) (le_refl _)

theorem dedupeByRoute_subset : ∀ (n : Nat) (l : List RouteRow), l.length ≤ n →
    ∀ x ∈ dedupeByRoute l, x ∈ l := by
  intro n
  induction n with
  | zero =>
    intro l h x hx
    have : l = [] := List.eq_nil_of_length_eq_zero (Nat.le_zero.mp h)
    subst this
    simp [dedupeByRoute, dedupeByRouteGo] at hx
  | succ n ih =>
    intro l h x hx
    cases l with
    | nil => simp [dedupeByRoute, dedupeByRouteGo] at hx
    | cons r rs =>
      rw [dedupeByRoute_cons] at hx
      rcases List.mem_cons.mp hx with hx | hx
      · exact hx ▸ List.mem_cons_self r rs
      · have hf := List.length_filter_le (fun x => x.route != r.route) rs
        have := ih (rs.filter (fun x => x.route != r.route))
          (by simp only [List.length_cons] at h; omega) x hx
        exact List.mem_cons_of_mem r (List.mem_of_mem_filter this)

theorem dedupeByRoute_nodup : ∀ (n : Nat) (l : List RouteRow), l.length ≤ n →
    ((dedupeByRoute l).map (·.route)).Nodup := by
  intro n
  induction n with
  | zero =>
    intro l h
    have : l = [] := List.eq_nil_of_length_eq_zero (Nat.le_zero.mp h)
    subst this
    simp [dedupeByRoute, dedupeByRouteGo]
  | succ n ih =>
    intro l h
    cases l with
    | nil => simp [dedupeByRoute, dedupeByRouteGo]
    | cons r rs =>
      rw [dedupeByRoute_cons]
      have hf := List.length_filter_le (fun x => x.route != r.route) rs
      have hlen : (rs.filter (fun x => x.route != r.route)).length ≤ n := by
        simp only [List.length_cons] at h
        omega
      simp only [List.map_cons, List.nodup_cons]
      refine ⟨?_, ih _ hlen⟩
      intro hmem
      obtain ⟨x, hx, hxr⟩ := List.mem_map.mp hmem
      have hxf := dedupeByRoute_subset _ _ (le_refl _) x hx
      have := List.of_mem_filter hxf
      rw [hxr] at this
      simp at this

theorem dedupeByRoute_eq_self : ∀ (n : Nat) (l : List RouteRow), l.length ≤ n →
    (l.map (·.route)).Nodup → dedupeByRoute l = l := by
  intro n
  induction n with
  | zero =>
    intro l h _
    have : l = [] := List.eq_nil_of_length_eq_zero (Nat.le_zero.mp h)
    subst this
    rfl
  | succ n ih =>
    intro l h hnd
    cases l with
    | nil => rfl
    | cons r rs =>
      rw [dedupeByRoute_cons]
      simp only [List.map_cons, List.nodup_cons] at hnd
      have hfilter : rs.filter (fun x => x.route != r.route) = rs := by
        apply List.filter_eq_self.mpr
        intro x hx
        simp only [bne_iff_ne, ne_eq, decide_eq_true_eq]
        intro hxr
        exact hnd.1 (List.mem_map.mpr ⟨x, hx, hxr⟩)
      rw [hfilter, ih rs (by simp only [List.length_cons] at h; omega) hnd.2]

theorem dedupeByRoute_append : ∀ (n : Nat) (xs : List RouteRow), xs.length ≤ n →
    ∀ ys : List RouteRow,
      (∀ y ∈ ys, ∀ x ∈ xs, y.route ≠ x.route) →
      (ys.map (·.route)).Nodup →
      dedupeByRoute (xs ++ ys) = dedupeByRoute xs ++ ys := by
  intro n
  induction n with
  | zero =>
    intro xs h ys hdisj hnd
    have : xs = [] := List.eq_nil_of_length_eq_zero (Nat.le_zero.mp h)
    subst this
    simpa using dedupeByRoute_eq_self ys.length ys (le_refl _) hnd
  | succ n ih =>
    intro xs h ys hdisj hnd
    cases xs with
    | nil => simpa using dedupeByRoute_eq_self ys.length ys (le_refl _) hnd
    | cons r rs =>
      rw [List.cons_append, dedupeByRoute_cons, dedupeByRoute_cons, List.filter_append]
      have hys : ys.filter (fun x => x.route != r.route) = ys := by
        apply List.filter_eq_self.mpr
        intro y hy
        simp only [bne_iff_ne, ne_eq, decide_eq_true_eq]
        exact hdisj y hy r (List.mem_cons_self r rs)
      rw [hys, List.cons_append]
      congr 1
      apply ih (rs.filter (fun x => x.route != r.route))
        (by have := List.length_filter_le (fun x => x.route != r.route) rs
            simp only [List.length_cons] at h
            omega)
      · intro y hy x hx
        exact hdisj y hy x (List.mem_cons_of_mem r (List.mem_of_mem_filter hx))
      · exact hnd

theorem nlargest_subset {n : Nat} {key : RouteRow → ℚ} {rows : List RouteRow} :
    ∀ x ∈ nlargest n key rows, x ∈ rows := by
  intro x hx
  unfold nlargest at hx
  exact ((List.perm_insertionSort _ rows).mem_iff).mp (List.take_subset _ _ hx)

theorem dfSample_length (n : Nat) (rs : Option Nat) (amb : Nat) (rows : List RouteRow) :
    (dfSample n rs amb rows).length = min n rows.length := by
  unfold dfSample
  rw [List.length_take, (List.perm_insertionSort _ rows).length_eq]

theorem dfSample_subset {n : Nat} {rs : Option Nat} {amb : Nat} {rows : List RouteRow} :
    ∀ x ∈ dfSample n rs amb rows, x ∈ rows := by
  intro x hx
  unfold dfSample at hx
  exact ((List.perm_insertionSort _ rows).mem_iff).mp (List.take_subset _ _ hx)

theorem dfSample_nodup {n : Nat} {rs : Option Nat} {amb : Nat} {rows : List RouteRow}
    (h : (rows.map (·.route)).Nodup) :
    ((dfSample n rs amb rows).map (·.route)).Nodup := by
  unfold dfSample
  rw [List.map_take]
  exact (((List.perm_insertionSort _ rows).map (·.route)).nodup_iff.mpr h).sublist
    (List.take_sublist _ _)

theorem remaining_nodup (vk : RouteRow → ℚ) (n : Nat) (df : List RouteRow)
    (h : (df.map (·.route)).Nodup) :
    ((remainingRoutes vk n df).map (·.route)).Nodup :=
  h.sublist ((List.filter_sublist df).map (·.route))

theorem remaining_disjoint (vk : RouteRow → ℚ) (n : Nat) (df : List RouteRow) :
    ∀ y ∈ remainingRoutes vk n df,
      ∀ x ∈ costRoutes vk n df ++ volumeRoutes n df, y.route ≠ x.route := by
  intro y hy x hx heq
  have hy2 := (List.mem_filter.mp hy).2
  have hx2 : x.route ∈ usedRouteIds vk n df := by
    unfold usedRouteIds
    rw [List.mem_dedup]
    exact List.mem_map.mpr ⟨x, hx, rfl⟩
  rw [← heq] at hx2
  simp [hx2] at hy2

theorem diversityRoutes_length (vk : RouteRow → ℚ) (amb n : Nat) (df : List RouteRow) :
    (diversityRoutes vk amb n df).length =
      min (n / 5) (remainingRoutes vk n df).length := by
  unfold diversityRoutes
  split_ifs with h
  · rw [dfSample_length]
    omega
  · simp only [List.length_nil]
    omega

theorem diversityRoutes_subset (vk : RouteRow → ℚ) (amb n : Nat) (df : List RouteRow) :
    ∀ x ∈ diversityRoutes vk amb n df, x ∈ remainingRoutes vk n df := by
  intro x hx
  unfold diversityRoutes at hx
  split_ifs at hx with h
  · exact dfSample_subset x hx
  · simp at hx

theorem diversityRoutes_nodup (vk : RouteRow → ℚ) (amb n : Nat) (df : List RouteRow)
    (h : (df.map (·.route)).Nodup) :
    ((diversityRoutes vk amb n df).map (·.route)).Nodup := by
  unfold diversityRoutes
  split_ifs with hp
  · exact dfSample_nodup (remaining_nodup vk n df h)
  · simp

theorem length_le_of_nodup_routes {xs ys : List RouteRow}
    (hnd : (xs.map (·.route)).Nodup) (hsub : ∀ x ∈ xs, x ∈ ys) :
    xs.length ≤ ys.length := by
  have h1 : xs.length = (xs.map (·.route)).toFinset.card := by
    rw [List.toFinset_card_of_nodup hnd, List.length_map]
  rw [h1]
  calc (xs.map (·.route)).toFinset.card
      ≤ (ys.map (·.route)).toFinset.card := by
        apply Finset.card_le_card
        intro a ha
        simp only [List.mem_toFinset, List.mem_map] at ha ⊢
        obtain ⟨x, hx, rfl⟩ := ha
        exact ⟨x, hsub x hx, rfl⟩
    _ ≤ (ys.map (·.route)).length := List.toFinset_card_le _
    _ = ys.length := List.length_map _ _

/-- C1 (amended): writing `u` for the number of distinct routes in the union
of the top-`⌊0.4·N⌋`-by-cost and top-`⌊0.4·N⌋`-by-volume subsets and `R` for
the number of eligible routes outside that union, the sampler returns exactly
`min N (u + min ⌊0.2·N⌋ R)` routes (for a table whose eligible routes have
pairwise-distinct identifiers); this is at most `min N (number of eligible
routes)` but can be strictly smaller, so the sampler need not reach
`min N (eligible)`. -/
theorem sample_count_amended (ambient : Nat) (cf : Option (List String)) (N : Nat)
    (rows : List RouteRow)
    (hnd : ((eligibleRoutes cf rows).map (·.route)).Nodup) :
    (sampleRoutes (fun r => r.total_delay_cost) ambient cf (some N) rows).length =
      min N
        ((dedupeByRoute
            (costRoutes (fun r => r.total_delay_cost) N (eligibleRoutes cf rows) ++
             volumeRoutes N (eligibleRoutes cf rows))).length +
          min (N / 5)
            (remainingRoutes (fun r => r.total_delay_cost) N
              (eligibleRoutes cf rows)).length) ∧
    (sampleRoutes (fun r => r.total_delay_cost) ambient cf (some N) rows).length ≤
      min N (eligibleRoutes cf rows).length := by
  have hdisj : ∀ y ∈ diversityRoutes (fun r => r.total_delay_cost) ambient N
        (eligibleRoutes cf rows),
      ∀ x ∈ costRoutes (fun r => r.total_delay_cost) N (eligibleRoutes cf rows) ++
          volumeRoutes N (eligibleRoutes cf rows), y.route ≠ x.route := by
    intro y hy x hx
    exact remaining_disjoint _ N _ y (diversityRoutes_subset _ _ _ _ y hy) x hx
  have hdivnd := diversityRoutes_nodup (fun r => r.total_delay_cost) ambient N
    (eligibleRoutes cf rows) hnd
  have hsr : sampleRoutes (fun r => r.total_delay_cost) ambient cf (some N) rows =
      (dedupeByRoute
        ((costRoutes (fun r => r.total_delay_cost) N (eligibleRoutes cf rows) ++
          volumeRoutes N (eligibleRoutes cf rows)) ++
         diversityRoutes (fun r => r.total_delay_cost) ambient N
           (eligibleRoutes cf rows))).take N := by
    unfold sampleRoutes
    dsimp only [Option.getD_some]
  have happ := dedupeByRoute_append
    (costRoutes (fun r => r.total_delay_cost) N (eligibleRoutes cf rows) ++
      volumeRoutes N (eligibleRoutes cf rows)).length _ (le_refl _) _ hdisj hdivnd
  constructor
  · rw [hsr, happ, List.length_take, List.length_append, diversityRoutes_length]
  · rw [hsr, List.length_take]
    have hnodup := dedupeByRoute_nodup
      ((costRoutes (fun r => r.total_delay_cost) N (eligibleRoutes cf rows) ++
          volumeRoutes N (eligibleRoutes cf rows)) ++
        diversityRoutes (fun r => r.total_delay_cost) ambient N
          (eligibleRoutes cf rows)).length _ (le_refl _)
    have hsub : ∀ x ∈ dedupeByRoute
        ((costRoutes (fun r => r.total_delay_cost) N (eligibleRoutes cf rows) ++
          volumeRoutes N (eligibleRoutes cf rows)) ++
         diversityRoutes (fun r => r.total_delay_cost) ambient N
           (eligibleRoutes cf rows)), x ∈ eligibleRoutes cf rows := by
      intro x hx
      have hx2 := dedupeByRoute_subset _ _ (le_refl _) x hx
      rcases List.mem_append.mp hx2 with hx3 | hx3
      · rcases List.mem_append.mp hx3 with hx4 | hx4
        · exact nlargest_subset x hx4
        · exact nlargest_subset x hx4
      · exact List.mem_of_mem_filter (diversityRoutes_subset _ _ _ _ x hx3)
    have hle := length_le_of_nodup_routes hnodup hsub
    omega

/-- C1 is false as stated: on the eight-route table `overlapTable` (all
routes above the flight floor, identically ranked by cost and by volume) with
`N = 10`, the top-cost and top-volume subsets coincide, so the sampler
returns 6 routes, not `min 10 8 = 8`. -/
def overlapTable : List RouteRow :=
  [{ route := "R1", primary_carrier := "AA", num_flights := 899,
     total_delay_cost := 899, avg_delay_cost := 0, avg_delay_min := 0, delay_rate := 0 },
   { route := "R2", primary_carrier := "AA", num_flights := 898,
     total_delay_cost := 898, avg_delay_cost := 0, avg_delay_min := 0, delay_rate := 0 },
   { route := "R3", primary_carrier := "AA", num_flights := 897,
     total_delay_cost := 897, avg_delay_cost := 0, avg_delay_min := 0, delay_rate := 0 },
   { route := "R4", primary_carrier := "AA", num_flights := 896,
     total_delay_cost := 896, avg_delay_cost := 0, avg_delay_min := 0, delay_rate := 0 },
   { route := "R5", primary_carrier := "AA", num_flights := 895,
     total_delay_cost := 895, avg_delay_cost := 0, avg_delay_min := 0, delay_rate := 0 },
   { route := "R6", primary_carrier := "AA", num_flights := 894,
     total_delay_cost := 894, avg_delay_cost := 0, avg_delay_min := 0, delay_rate := 0 },
   { route := "R7", primary_carrier := "AA", num_flights := 893,
     total_delay_cost := 893, avg_delay_cost := 0, avg_delay_min := 0, delay_rate := 0 },
   { route := "R8", primary_carrier := "AA", num_flights := 892,
     total_delay_cost := 892, avg_delay_cost := 0, avg_delay_min := 0, delay_rate := 0 }]

/-- C1 counterexample: eight eligible routes, `N = 10`, yet the sampler
returns only six routes — fewer than `min N (eligible)`, and not every
eligible route is returned. -/
theorem sample_count_counterexample :
    (eligibleRoutes none overlapTable).length = 8 ∧
    (sampleRoutes (fun r => r.total_delay_cost) 0 none (some 10) overlapTable).length = 6 ∧
    ¬ ((sampleRoutes (fun r => r.total_delay_cost) 0 none (some 10) overlapTable).length =
        min 10 (eligibleRoutes none overlapTable).length) := by
  refine ⟨by decide, by decide, by decide⟩

/-- A concrete instance of `sample_count_amended` at the same table: the
sampler's count equals the amended formula's value (here both sides are 6). -/
theorem sample_count_amended_witness :
    (sampleRoutes (fun r => r.total_delay_cost) 0 none (some 10) overlapTable).length =
      min 10
        ((dedupeByRoute
            (costRoutes (fun r => r.total_delay_cost) 10 (eligibleRoutes none overlapTable) ++
             volumeRoutes 10 (eligibleRoutes none overlapTable))).length +
          min (10 / 5)
            (remainingRoutes (fun r => r.total_delay_cost) 10
              (eligibleRoutes none overlapTable)).length) :=
  (sample_count_amended 0 none 10 overlapTable (by decide)).1
